import Mathlib

/-!
Verification of the MessageBridge component (`call_llm` in
`src/apps/briefs/src/.ipynb_checkpoints/llm-checkpoint.py`).

The Python function translates an OpenAI-style chat transcript into the
Google Gemini request shape, performs one remote call, and normalises the
response and every error shape into a `(text, usage)` pair.  The embedding
below models:

- Python dictionary messages as `Msg` (optional `role` key, optional
  `content` key whose value is an arbitrary Python value `PyVal`);
- Python `str()` coercion as `pyStr`;
- the remote SDK call as an oracle `Request → RemoteOutcome`, covering a
  successful response and each exception class the source catches
  (`PermissionDenied`, `ResourceExhausted`, `NotFound`, `InvalidArgument`,
  and a generic exception for the catch-all handler);
- the result of `call_llm` as a `CallTrace`: the returned value (or an
  uncaught Python exception, as `Except.error`) together with the list of
  remote requests issued, so that "zero remote calls made" is a statement
  about the trace.

One semantic fact is baked into the embedding and justified here: in the
generic catch-all handler the source evaluates `e._class.name_` (both in
the log line and in the returned f-string).  Python exception objects have
no attribute named `_class` (the intended spelling is the dunder form of
class/name), so that attribute access raises `AttributeError`, which
propagates out of `call_llm`.  The embedding models this branch as
`Except.error "AttributeError"`.
-/

/-- A Python value that can appear as the `content` of a message:
a string, an integer, `None`, or a list of values.  `str()` and `repr()`
are modelled by `pyStr` and `pyRepr` below. -/
inductive PyVal where
  | vStr : String → PyVal
  | vInt : Int → PyVal
  | vNone : PyVal
  | vList : List PyVal → PyVal
deriving Repr

mutual
/-- Python `repr()` on a `PyVal` (used by `str()` on list elements). -/
def pyRepr : PyVal → String
  | .vStr s => "'" ++ s ++ "'"
  | .vInt n => toString n
  | .vNone => "None"
  | .vList xs => "[" ++ pyReprList xs ++ "]"

/-- Comma-separated `repr()` of list elements. -/
def pyReprList : List PyVal → String
  | [] => ""
  | [x] => pyRepr x
  | x :: y :: xs => pyRepr x ++ ", " ++ pyReprList (y :: xs)
end

/-- Python `str()` on a `PyVal`: the string itself for strings, `repr`
rendering otherwise (`str(None) = "None"`, `str(3) = "3"`, lists render
with brackets). -/
def pyStr : PyVal → String
  | .vStr s => s
  | v => pyRepr v

/-- An input message: a Python dict, of which only the `role` and
`content` keys matter to the source.  `none` means the key is absent;
`some PyVal.vNone` models a key present with value `None`. -/
structure Msg where
  role : Option String
  content : Option PyVal

/-- One text part of a Google-format message. -/
structure GPart where
  text : String
deriving Repr, DecidableEq

/-- A Google-format message: `{'role': role, 'parts': [{'text': ...}]}`. -/
structure GMsg where
  role : String
  parts : List GPart
deriving Repr, DecidableEq

/-- The role mapping from the source line
`role = 'model' if msg['role'] == 'assistant' else msg['role']`. -/
def mapRole (r : String) : String :=
  if r = "assistant" then "model" else r

/-- One iteration of the conversion loop: a message with both a `role`
key and a `content` key becomes a Google message whose single text part
is `str(content)`; any other message is skipped (the source logs a
warning and continues). -/
def convertMsg (m : Msg) : Option GMsg :=
  match m.role, m.content with
  | some r, some c => some { role := mapRole r, parts := [{ text := pyStr c }] }
  | _, _ => none

/-- The conversion loop of `call_llm`: start from the empty list and
append the converted form of each valid message in order. -/
def convertLoop (ms : List Msg) : List GMsg :=
  ms.foldl (fun acc m =>
    match convertMsg m with
    | some g => acc ++ [g]
    | none => acc) []

/-- Token-count usage metadata attached to a response
(`response.usage_metadata`); the source passes it through unchanged. -/
structure Usage where
  promptTokens : Nat
  completionTokens : Nat
deriving Repr, DecidableEq

/-- The `content` field of a candidate: a message holding a list of
parts.  The source tests `candidates[0].content and candidates[0].content.parts`,
i.e. content truthy and its parts list non-empty. -/
structure ContentC where
  parts : List GPart
deriving Repr, DecidableEq

/-- One response candidate. -/
structure Candidate where
  content : Option ContentC
  finish_reason : String
deriving Repr, DecidableEq

/-- The `prompt_feedback` field of a blocked response. -/
structure PromptFeedback where
  block_reason : String
deriving Repr, DecidableEq

/-- A successful SDK response. -/
structure GResponse where
  candidates : List Candidate
  prompt_feedback : Option PromptFeedback
  usage_metadata : Option Usage
deriving Repr, DecidableEq

/-- The outbound request `call_llm` builds: model name, converted
contents, and the clamped temperature inside the generation config. -/
structure Request where
  model : String
  contents : List GMsg
  temperature : Rat

/-- The outcome of the one remote call, as seen by the `try` block:
either a response object or one of the exception classes the source
handles.  `otherExc` is any exception reaching the generic catch-all
(its argument models `str(e)`). -/
inductive RemoteOutcome where
  | success : GResponse → RemoteOutcome
  | permissionDenied : String → RemoteOutcome
  | resourceExhausted : String → RemoteOutcome
  | notFound : String → RemoteOutcome
  | invalidArgument : String → RemoteOutcome
  | otherExc : String → RemoteOutcome

/-- What a call to `call_llm` does: the value it returns (a
`(text, usage)` pair) or the uncaught Python exception it raises
(`Except.error` with the exception class name), together with the list
of remote requests it issued. -/
structure CallTrace where
  result : Except String (String × Option Usage)
  requests : List Request

/-- Shallow embedding of `call_llm(model, messages, temperature)`.
`IS_API_KEY_CONFIGURED` is the module-level flag set once at startup.
`remote` is the oracle for `GenerativeModel(...).generate_content(...)`.
The generic catch-all branch raises `AttributeError` because the source
reads the nonexistent attribute `e._class` there (see the header note). -/
def call_llm (IS_API_KEY_CONFIGURED : Bool) (model : String)
    (messages : List Msg) (temperature : Rat)
    (remote : Request → RemoteOutcome) : CallTrace :=
  if IS_API_KEY_CONFIGURED then
    let google_contents := convertLoop messages
    if google_contents.isEmpty then
      { result := .ok ("Error: No valid messages to send", none), requests := [] }
    else
      let temp := max 0 (min 1 temperature)
      let req : Request := { model := model, contents := google_contents, temperature := temp }
      match remote req with
      | .success response =>
        let usage_data := response.usage_metadata
        match response.candidates with
        | c0 :: _ =>
          match c0.content with
          | some cont =>
            if cont.parts.isEmpty then
              { result := .ok ("Error: Generation finished without content. Reason: "
                  ++ c0.finish_reason, usage_data), requests := [req] }
            else
              { result := .ok (String.join (cont.parts.map GPart.text), usage_data),
                requests := [req] }
          | none =>
            { result := .ok ("Error: Generation finished without content. Reason: "
                ++ c0.finish_reason, usage_data), requests := [req] }
        | [] =>
          let block_reason :=
            match response.prompt_feedback with
            | some pf => pf.block_reason
            | none => "UNKNOWN"
          { result := .ok ("Error: LLM call failed. Prompt Block Reason: "
              ++ block_reason, usage_data), requests := [req] }
      | .permissionDenied e =>
        { result := .ok ("Error: Permission Denied - " ++ e, none), requests := [req] }
      | .resourceExhausted e =>
        { result := .ok ("Error: Quota Exceeded - " ++ e, none), requests := [req] }
      | .notFound e =>
        { result := .ok ("Error: Not Found - " ++ e, none), requests := [req] }
      | .invalidArgument e =>
        { result := .ok ("Error: Invalid Argument - " ++ e, none), requests := [req] }
      | .otherExc _ =>
        { result := .error "AttributeError", requests := [req] }
  else
    { result := .ok ("Error: Library not configured", none), requests := [] }

/-- Case-sensitive substring test over the underlying character lists,
modelling the ordinary reading of one string containing another. -/
def listContainsAux : List Char → List Char → Bool
  | l, pat =>
    match l with
    | [] => pat.isEmpty
    | _ :: t => if pat.isPrefixOf l then true else listContainsAux t pat

/-- String containment: `strContains s pat` is true when `pat` occurs
contiguously in `s`. -/
def strContains (s pat : String) : Bool :=
  listContainsAux s.data pat.data

/-- The conversion loop, with any starting accumulator, appends exactly
the converted form of each valid message in order. -/
lemma convertLoop_foldl_eq (ms : List Msg) (acc : List GMsg) :
    ms.foldl (fun acc m =>
      match convertMsg m with
      | some g => acc ++ [g]
      | none => acc) acc = acc ++ ms.filterMap convertMsg := by
  induction ms generalizing acc with
  | nil => simp
  | cons m t ih =>
    simp only [List.foldl_cons, List.filterMap_cons]
    cases h : convertMsg m with
    | none => simp [h, ih]
    | some g => simp [h, ih]

/-- The conversion loop is the `filterMap` of the per-message rule. -/
lemma convertLoop_eq_filterMap (ms : List Msg) :
    convertLoop ms = ms.filterMap convertMsg := by
  simpa using convertLoop_foldl_eq ms []

/-- String concatenation is associative. -/
lemma strAppendAssoc (a b c : String) : a ++ b ++ c = a ++ (b ++ c) := by
  cases a; cases b; cases c
  show String.mk _ = String.mk _
  simp [String.append, List.append_assoc]

/-- Two temperatures with the same clamped value give identical calls. -/
lemma call_llm_congr_temp (conf : Bool) (model : String) (msgs : List Msg)
    (t t' : Rat) (remote : Request → RemoteOutcome)
    (h : max 0 (min 1 t) = max 0 (min 1 t')) :
    call_llm conf model msgs t remote = call_llm conf model msgs t' remote := by
  unfold call_llm
  rw [h]

/-- Claim C1 (code-bug evidence): contrary to the claim that `call_llm`
always returns a CallResult, when the remote call fails with a generic
exception handled by the catch-all, the handler itself evaluates the
nonexistent attribute access on the exception object and `call_llm`
raises `AttributeError` instead of returning. -/
theorem call_llm_catchall_raises :
    (call_llm true "m1" [{ role := some "user", content := some (.vStr "hello") }] 0
      (fun _ => .otherExc "boom")).result = .error "AttributeError" := rfl

/-- Claim C2: the role conversion applied to each valid message is total
and deterministic: "assistant" maps to "model", "user" maps to "user",
any other role passes through unchanged, and a message with both keys is
converted using exactly this mapping with a single stringified text part. -/
theorem role_mapping_total :
    mapRole "assistant" = "model" ∧ mapRole "user" = "user" ∧
    (∀ r : String, r ≠ "assistant" → mapRole r = r) ∧
    (∀ (r : String) (c : PyVal),
      convertMsg { role := some r, content := some c }
        = some { role := mapRole r, parts := [{ text := pyStr c }] }) := by
  refine ⟨rfl, rfl, ?_, ?_⟩
  · intro r h
    simp [mapRole, h]
  · intro r c
    rfl

/-- Witness for C2 at a concrete non-assistant, non-user role. -/
theorem role_mapping_total_witness :
    ("system" : String) ≠ "assistant" ∧ mapRole "system" = "system" :=
  ⟨by decide, role_mapping_total.2.2.1 "system" (by decide)⟩

/-- Claim C4: with the configuration flag false, `call_llm` returns the
fixed not-configured error with no usage, on every model, transcript,
temperature and remote behaviour, and issues zero remote requests. -/
theorem call_llm_not_configured (model : String) (msgs : List Msg) (t : Rat)
    (remote : Request → RemoteOutcome) :
    call_llm false model msgs t remote
      = { result := .ok ("Error: Library not configured", none), requests := [] } := rfl

/-- Claim C9 (counterexample): a message whose content key is present
with value None is NOT dropped by the conversion; it is kept with the
stringified text "None", refuting the part of the claim that says
entries with null content are dropped. -/
theorem null_content_not_dropped :
    convertLoop [{ role := some "user", content := some PyVal.vNone }]
      = [{ role := "user", parts := [{ text := "None" }] }] := rfl

/-- Claim C9 (amended): a message missing the role key or missing the
content key is skipped by the conversion and contributes nothing to the
converted sequence, and this skipping is never fatal; a message with
both keys present is always kept, even when its content value is None. -/
theorem malformed_dropped_not_fatal :
    (∀ m : Msg, (m.role = none ∨ m.content = none) → convertMsg m = none) ∧
    (∀ ms : List Msg,
      convertLoop ms
        = convertLoop (ms.filter (fun m => m.role.isSome && m.content.isSome))) := by
  constructor
  · intro m h
    rcases m with ⟨r, c⟩
    rcases h with h | h <;> subst h
    · rfl
    · cases r <;> rfl
  · intro ms
    rw [convertLoop_eq_filterMap, convertLoop_eq_filterMap]
    induction ms with
    | nil => rfl
    | cons m t ih =>
      rcases m with ⟨r, c⟩
      cases r <;> cases c <;> simp [convertMsg, ih]

/-- Witness for amended C9: a message with a role but no content key is
converted to nothing. -/
theorem malformed_dropped_not_fatal_witness :
    (({ role := some "user", content := none } : Msg).role = none ∨
      ({ role := some "user", content := none } : Msg).content = none) ∧
    convertMsg { role := some "user", content := none } = none :=
  ⟨Or.inr rfl, malformed_dropped_not_fatal.1 { role := some "user", content := none }
    (Or.inr rfl)⟩

/-- Claim C10: the converted sequence has exactly one entry per input
message carrying both a role key and a content key, in the same relative
order, and each entry holds a single text part equal to the string
coercion of the original content value; non-string content is accepted
and stringified. -/
theorem conversion_one_entry_per_valid (ms : List Msg) :
    convertLoop ms
      = ms.filterMap (fun m =>
          match m.role, m.content with
          | some r, some c => some { role := mapRole r, parts := [{ text := pyStr c }] }
          | _, _ => none)
    ∧ (convertLoop ms).length
        = (ms.filter (fun m => m.role.isSome && m.content.isSome)).length := by
  constructor
  · exact convertLoop_eq_filterMap ms
  · rw [convertLoop_eq_filterMap]
    induction ms with
    | nil => rfl
    | cons m t ih =>
      rcases m with ⟨r, c⟩
      cases r <;> cases c <;> simp [convertMsg, ih]

/-- Claim C3: out-of-range temperatures behave identically to their
clamped values: temperature -5 gives the same call as 0, temperature 3.7
the same call as 1, and every request actually issued carries the
temperature max(0, min(1, input)). -/
theorem temperature_clamping :
    (∀ (conf : Bool) (model : String) (msgs : List Msg) (remote : Request → RemoteOutcome),
      call_llm conf model msgs (-5) remote = call_llm conf model msgs 0 remote) ∧
    (∀ (conf : Bool) (model : String) (msgs : List Msg) (remote : Request → RemoteOutcome),
      call_llm conf model msgs (37 / 10) remote = call_llm conf model msgs 1 remote) ∧
    (∀ (conf : Bool) (model : String) (msgs : List Msg) (t : Rat)
        (remote : Request → RemoteOutcome),
      ((call_llm conf model msgs t remote).requests.all
        (fun req => req.temperature == max 0 (min 1 t))) = true) := by
  refine ⟨?_, ?_, ?_⟩
  · intro conf model msgs remote
    exact call_llm_congr_temp conf model msgs (-5) 0 remote (by norm_num [min_def, max_def])
  · intro conf model msgs remote
    exact call_llm_congr_temp conf model msgs (37 / 10) 1 remote (by norm_num [min_def, max_def])
  · intro conf model msgs t remote
    unfold call_llm
    cases conf
    · simp
    · simp only [reduceIte]
      repeat' split
      all_goals simp

/-- Claim C5 (counterexample): on the empty transcript the error text is
"Error: No valid messages to send", which does not contain the claimed
lowercase phrase "no valid messages"; containment only holds with the
capitalisation the source uses. -/
theorem no_valid_messages_case_mismatch :
    (call_llm true "m1" [] 0 (fun _ => .otherExc "x")).result
      = .ok ("Error: No valid messages to send", none)
    ∧ strContains "Error: No valid messages to send" "no valid messages" = false :=
  ⟨rfl, rfl⟩

/-- Claim C5 (amended): for every transcript whose converted sequence is
empty, the call returns the error text "Error: No valid messages to
send" (which contains "No valid messages") with usage none and zero
remote requests. -/
theorem empty_conversion_error (model : String) (msgs : List Msg) (t : Rat)
    (remote : Request → RemoteOutcome) (h : (convertLoop msgs).isEmpty = true) :
    call_llm true model msgs t remote
      = { result := .ok ("Error: No valid messages to send", none), requests := [] }
    ∧ strContains "Error: No valid messages to send" "No valid messages" = true := by
  refine ⟨?_, rfl⟩
  unfold call_llm
  simp [h]

/-- Witness for amended C5 at the empty transcript. -/
theorem empty_conversion_error_witness :
    (convertLoop []).isEmpty = true ∧
    call_llm true "m1" [] 0 (fun _ => .otherExc "x")
      = { result := .ok ("Error: No valid messages to send", none), requests := [] } :=
  ⟨rfl, (empty_conversion_error "m1" [] 0 (fun _ => .otherExc "x") rfl).1⟩

/-- Claim C6 (counterexample): the no-content-parts branch returns an
error text together with the usage metadata of the response, so a
failure result can carry non-null usage, refuting the claim that every
failure result has usage null. -/
theorem failure_usage_not_null :
    (call_llm true "m1" [{ role := some "user", content := some (.vStr "hello") }] 0
      (fun _ => .success
        { candidates := [{ content := some { parts := [] }, finish_reason := "SAFETY" }],
          prompt_feedback := none,
          usage_metadata := some { promptTokens := 5, completionTokens := 2 } })).result
      = .ok ("Error: Generation finished without content. Reason: SAFETY",
          some { promptTokens := 5, completionTokens := 2 }) := rfl

/-- Claim C6 (amended): every failure result produced without a
successful remote response, that is the not-configured check, the
empty-transcript check and all caught exception branches, has usage
null; only the error branches that inspect a successful response attach
its usage metadata. -/
theorem usage_null_without_success (conf : Bool) (model : String) (msgs : List Msg)
    (t : Rat) (remote : Request → RemoteOutcome) (txt : String) (u : Option Usage)
    (hns : ∀ req resp, remote req ≠ .success resp)
    (hok : (call_llm conf model msgs t remote).result = .ok (txt, u)) :
    u = none := by
  unfold call_llm at hok
  split at hok
  · simp only [] at hok
    split at hok
    · simp at hok
      exact hok.2.symm
    · split at hok
      · exact absurd (by assumption) (hns _ _)
      · simp at hok
        exact hok.2.symm
      · simp at hok
        exact hok.2.symm
      · simp at hok
        exact hok.2.symm
      · simp at hok
        exact hok.2.symm
      · exact Except.noConfusion hok
  · simp at hok
    exact hok.2.symm

/-- Witness for amended C6: a quota failure carries usage null. -/
theorem usage_null_without_success_witness :
    (call_llm true "m1" [{ role := some "user", content := some (.vStr "hi") }] 0
      (fun _ => .resourceExhausted "q")).result = .ok ("Error: Quota Exceeded - q", none)
    ∧ (none : Option Usage) = none :=
  ⟨rfl, usage_null_without_success true "m1"
    [{ role := some "user", content := some (.vStr "hi") }] 0
    (fun _ => .resourceExhausted "q") "Error: Quota Exceeded - q" none
    (fun _ _ h => RemoteOutcome.noConfusion h) rfl⟩

/-- Claim C7: on a successful remote response with at least one
candidate, the call returns the in-order concatenation of the text
fragments of the first candidate together with the usage metadata of the
response; when the first candidate has no content parts it instead
returns an error text naming the finish reason, still attaching the
usage metadata. -/
theorem success_first_candidate (model : String) (msgs : List Msg) (t : Rat)
    (remote : Request → RemoteOutcome) (response : GResponse) (c0 : Candidate)
    (rest : List Candidate)
    (hne : (convertLoop msgs).isEmpty = false)
    (hr : remote { model := model, contents := convertLoop msgs,
                   temperature := max 0 (min 1 t) } = .success response)
    (hc : response.candidates = c0 :: rest) :
    (∀ cont : ContentC, c0.content = some cont → cont.parts.isEmpty = false →
      (call_llm true model msgs t remote).result
        = .ok (String.join (cont.parts.map GPart.text), response.usage_metadata))
    ∧ ((c0.content = none ∨ ∃ cont : ContentC, c0.content = some cont ∧ cont.parts = []) →
      (call_llm true model msgs t remote).result
        = .ok ("Error: Generation finished without content. Reason: " ++ c0.finish_reason,
            response.usage_metadata)) := by
  constructor
  · intro cont hcont hparts
    simp [call_llm, hne, hr, hc, hcont, hparts]
  · rintro (hnone | ⟨cont, hcont, hparts⟩)
    · simp [call_llm, hne, hr, hc, hnone]
    · simp [call_llm, hne, hr, hc, hcont, hparts]

/-- Witness for C7: the scenario with one candidate of text "hi there"
and usage counts 5 and 2. -/
theorem success_first_candidate_witness :
    (call_llm true "m1" [{ role := some "user", content := some (.vStr "hello") }] 0
      (fun _ => .success
        { candidates := [{ content := some { parts := [{ text := "hi there" }] },
                           finish_reason := "STOP" }],
          prompt_feedback := none,
          usage_metadata := some { promptTokens := 5, completionTokens := 2 } })).result
      = .ok ("hi there", some { promptTokens := 5, completionTokens := 2 }) :=
  (success_first_candidate "m1" [{ role := some "user", content := some (.vStr "hello") }] 0
    (fun _ => .success
      { candidates := [{ content := some { parts := [{ text := "hi there" }] },
                         finish_reason := "STOP" }],
        prompt_feedback := none,
        usage_metadata := some { promptTokens := 5, completionTokens := 2 } })
    { candidates := [{ content := some { parts := [{ text := "hi there" }] },
                       finish_reason := "STOP" }],
      prompt_feedback := none,
      usage_metadata := some { promptTokens := 5, completionTokens := 2 } }
    { content := some { parts := [{ text := "hi there" }] }, finish_reason := "STOP" }
    [] rfl rfl rfl).1 { parts := [{ text := "hi there" }] } rfl rfl

/-- Claim C8: a quota-exceeded failure of the remote call yields the
error text "Error: Quota Exceeded - " followed by the exception text,
which starts with "Error: Quota Exceeded", and usage null. -/
theorem quota_exceeded_result (model : String) (msgs : List Msg) (t : Rat)
    (remote : Request → RemoteOutcome) (e : String)
    (hne : (convertLoop msgs).isEmpty = false)
    (hr : remote { model := model, contents := convertLoop msgs,
                   temperature := max 0 (min 1 t) } = .resourceExhausted e) :
    (call_llm true model msgs t remote).result
      = .ok ("Error: Quota Exceeded - " ++ e, none)
    ∧ ∃ s : String, "Error: Quota Exceeded - " ++ e = "Error: Quota Exceeded" ++ s := by
  constructor
  · simp [call_llm, hne, hr]
  · exact ⟨" - " ++ e, (strAppendAssoc "Error: Quota Exceeded" " - " e).symm⟩

/-- Witness for C8 at a concrete quota failure. -/
theorem quota_exceeded_result_witness :
    (call_llm true "m1" [{ role := some "user", content := some (.vStr "hi") }] 0
      (fun _ => .resourceExhausted "q")).result = .ok ("Error: Quota Exceeded - q", none) :=
  (quota_exceeded_result "m1" [{ role := some "user", content := some (.vStr "hi") }] 0
    (fun _ => .resourceExhausted "q") "q" rfl rfl).1
